import Mathlib

/-!
Verification of the ECR image logger Lambda handler (`lambda_function.py`).

The handler receives one JSON-like event, resolves three fields by a
two-way dispatch on the presence of a top-level "detail" key, generates a
timestamp, writes one item to DynamoDB, publishes one SNS message, and
returns a 200 envelope.  We embed the handler as a pure function over a
JSON-like value type, with the two external calls modelled by
fault-injection flags and an observable effect trace.
-/

namespace ECRLogger

/-- JSON-like values as delivered to the handler.  The two event shapes in
the source carry string leaves; `jnull` models JSON `null` and `jobj`
models nested objects (Python dicts with unique keys, here association
lists whose first binding wins, as in a dict). -/
inductive JVal where
  | jnull : JVal
  | jstr : String → JVal
  | jobj : List (String × JVal) → JVal

/-- An event payload: a top-level JSON object, i.e. a Python dict. -/
abbrev JObj := List (String × JVal)

/-- Python dict key lookup (`d[k]` / the `in` test): first binding wins. -/
def jlookup : JObj → String → Option JVal
  | [], _ => none
  | (k, v) :: rest, key => if k = key then some v else jlookup rest key

/-- Python exceptions the embedded code can raise. -/
inductive PyErr where
  | attributeError : PyErr
  | keyError : String → PyErr
  | clientError : String → PyErr
deriving DecidableEq

/-- Python `v.get(key, default)`: defined when `v` is a dict; on any other
value (`str`, `None`, ...) attribute lookup of `get` raises
`AttributeError`, which is what `event['detail'].get(...)` does in the
source when the "detail" value is not an object. -/
def jGet (v : JVal) (key : String) (default : JVal) : Except PyErr JVal :=
  match v with
  | .jobj o => .ok ((jlookup o key).getD default)
  | _ => .error .attributeError

mutual

/-- Python `repr` of a JSON-derived value (quote/escape subtleties of
`repr` on strings containing quotes or backslashes are out of scope: the
spec's event shapes carry plain identifiers). -/
def pyRepr : JVal → String
  | .jnull => "None"
  | .jstr s => "\x27" ++ s ++ "\x27"
  | .jobj fields => "\x7b" ++ pyReprFields fields ++ "\x7d"

/-- Comma-separated `repr` of dict entries. -/
def pyReprFields : List (String × JVal) → String
  | [] => ""
  | [(k, v)] => "\x27" ++ k ++ "\x27: " ++ pyRepr v
  | (k, v) :: rest => "\x27" ++ k ++ "\x27: " ++ pyRepr v ++ ", " ++ pyReprFields rest

end

/-- Python `str` of a JSON-derived value, as applied by the f-string in the
message template: a string is inlined as itself, `None` prints as `None`,
and a dict prints as its `repr`. -/
def pyStr : JVal → String
  | .jstr s => s
  | .jnull => "None"
  | .jobj fields => pyRepr (.jobj fields)

/-- `json.dumps` escaping for one ASCII character (the handler only ever
serializes the ASCII literal success string). -/
def jsonEscapeChar (c : Char) : String :=
  if c = '"' then "\\\""
  else if c = '\\' then "\\\\"
  else if c = '\n' then "\\n"
  else if c = '\t' then "\\t"
  else if c = '\r' then "\\r"
  else String.singleton c

/-- `json.dumps` applied to a Python string (ASCII, no other control
characters): the quoted, escaped JSON string. -/
def jsonDumpsStr (s : String) : String :=
  "\"" ++ String.join (s.data.map jsonEscapeChar) ++ "\""

/-- The process environment: a mapping from variable names to values. -/
abbrev Env := List (String × String)

/-- `os.environ[k]` lookup. -/
def envLookup : Env → String → Option String
  | [], _ => none
  | (k, v) :: rest, key => if k = key then some v else envLookup rest key

/-- Module-level configuration read at cold start. -/
structure Config where
  DYNAMODB_TABLE : String
  SNS_TOPIC_ARN : String
deriving DecidableEq

/-- Module initialization (`os.environ['DYNAMODB_TABLE']`,
`os.environ['SNS_TOPIC_ARN']`): a missing key raises `KeyError` before any
event can be handled. -/
def loadConfig (env : Env) : Except PyErr Config :=
  match envLookup env "DYNAMODB_TABLE" with
  | none => .error (.keyError "DYNAMODB_TABLE")
  | some t =>
    match envLookup env "SNS_TOPIC_ARN" with
    | none => .error (.keyError "SNS_TOPIC_ARN")
    | some a => .ok ⟨t, a⟩

/-- A UTC wall-clock reading, as held by a `datetime` object.
`datetime` itself enforces the ranges in `UTCTime.wf`. -/
structure UTCTime where
  year : Nat
  month : Nat
  day : Nat
  hour : Nat
  minute : Nat
  second : Nat
  microsecond : Nat
deriving DecidableEq

/-- The range invariants `datetime` enforces on its fields. -/
def UTCTime.wf (t : UTCTime) : Prop :=
  1 ≤ t.year ∧ t.year ≤ 9999 ∧ 1 ≤ t.month ∧ t.month ≤ 12 ∧
  1 ≤ t.day ∧ t.day ≤ 31 ∧ t.hour ≤ 23 ∧ t.minute ≤ 59 ∧
  t.second ≤ 59 ∧ t.microsecond ≤ 999999

instance (t : UTCTime) : Decidable t.wf := by
  unfold UTCTime.wf
  infer_instance

/-- The decimal digit character of `n % 10`. -/
def dc (n : Nat) : Char := Nat.digitChar (n % 10)

/-- Two-digit zero-padded decimal (`%02d` for values below 100). -/
def pad2 (n : Nat) : List Char := [dc (n / 10), dc n]

/-- Four-digit zero-padded decimal (`%04d` for values below 10000). -/
def pad4 (n : Nat) : List Char :=
  [dc (n / 1000), dc (n / 100), dc (n / 10), dc n]

/-- Six-digit zero-padded decimal (`%06d` for values below 1000000). -/
def pad6 (n : Nat) : List Char :=
  [dc (n / 100000), dc (n / 10000), dc (n / 1000), dc (n / 100), dc (n / 10), dc n]

/-- `datetime.isoformat()`: `YYYY-MM-DDTHH:MM:SS`, with `.ffffff` appended
exactly when the microsecond field is nonzero. -/
def isoformat (t : UTCTime) : String :=
  String.mk (pad4 t.year ++ '-' :: pad2 t.month ++ '-' :: pad2 t.day ++
    'T' :: pad2 t.hour ++ ':' :: pad2 t.minute ++ ':' :: pad2 t.second ++
    (if t.microsecond = 0 then [] else '.' :: pad6 t.microsecond))

/-- Checks that a string is an ISO-8601 date-time
`YYYY-MM-DDTHH:MM:SS[.ffffff]`. -/
def isISO8601 (s : String) : Bool :=
  match s.data with
  | y1 :: y2 :: y3 :: y4 :: a1 :: m1 :: m2 :: a2 :: d1 :: d2 :: tc ::
      h1 :: h2 :: c1 :: n1 :: n2 :: c2 :: s1 :: s2 :: rest =>
    [y1, y2, y3, y4, m1, m2, d1, d2, h1, h2, n1, n2, s1, s2].all Char.isDigit &&
    a1 == '-' && a2 == '-' && tc == 'T' && c1 == ':' && c2 == ':' &&
    (match rest with
     | [] => true
     | '.' :: f => f.length == 6 && f.all Char.isDigit
     | _ => false)
  | _ => false

/-- The normalized record written to DynamoDB (the `Item` of `put_item`):
the three resolved fields carry whatever values the event supplied (or the
string sentinels), the timestamp is the generated string. -/
structure PushRecord where
  Repository : JVal
  ImageTag : JVal
  PushedBy : JVal
  Timestamp : String

/-- Observable external calls, in program order, with the outcome of each
call (`ok = false` means the boto3 call raised). -/
inductive Effect where
  | putItem : String → PushRecord → Bool → Effect
  | snsPublish : (topicArn message subject : String) → Bool → Effect

/-- The handler's return value on success. -/
structure Response where
  statusCode : Nat
  body : String

/-- Lines 21-28 of the source: the two-way dispatch on the presence of a
top-level "detail" key, with per-field `get` defaults.  On the "detail"
branch the two nested `get` calls raise `AttributeError` when the "detail"
value is not a dict. -/
def resolveFields (event : JObj) : Except PyErr (JVal × JVal × JVal) :=
  match jlookup event "detail" with
  | some detail =>
    match jGet detail "image-tag" (.jstr "unknown-tag") with
    | .error e => .error e
    | .ok image_tag =>
      match jGet detail "repository-name" (.jstr "unknown-repo") with
      | .error e => .error e
      | .ok repository =>
        .ok (image_tag, repository,
          (jlookup event "account").getD (.jstr "unknown-user"))
  | none =>
    .ok ((jlookup event "image_tag").getD (.jstr "unknown-tag"),
      (jlookup event "repository").getD (.jstr "unknown-repo"),
      (jlookup event "pushed_by").getD (.jstr "unknown-user"))

/-- Lines 45-51 of the source: the five-line f-string message. -/
def notificationMessage (repository image_tag pushed_by : JVal)
    (timestamp : String) : String :=
  "Docker image pushed successfully!\n" ++
  "Repository: " ++ pyStr repository ++ "\n" ++
  "Tag: " ++ pyStr image_tag ++ "\n" ++
  "Pushed By: " ++ pyStr pushed_by ++ "\n" ++
  "Timestamp: " ++ timestamp

/-- `lambda_handler(event, context)`, with the wall clock passed explicitly
(`datetime.utcnow()` reads it once) and the success of the two boto3 calls
injected via `persistFails` / `publishFails`.  Returns the trace of
attempted external calls and either the raised exception or the returned
envelope. -/
def lambda_handler (cfg : Config) (persistFails publishFails : Bool)
    (event : JObj) (now : UTCTime) : List Effect × Except PyErr Response :=
  match resolveFields event with
  | .error e => ([], .error e)
  | .ok (image_tag, repository, pushed_by) =>
    let timestamp := isoformat now
    let item : PushRecord := ⟨repository, image_tag, pushed_by, timestamp⟩
    if persistFails then
      ([.putItem cfg.DYNAMODB_TABLE item false], .error (.clientError "put_item"))
    else
      let message := notificationMessage repository image_tag pushed_by timestamp
      if publishFails then
        ([.putItem cfg.DYNAMODB_TABLE item true,
          .snsPublish cfg.SNS_TOPIC_ARN message "ECR Image Push Notification" false],
         .error (.clientError "publish"))
      else
        ([.putItem cfg.DYNAMODB_TABLE item true,
          .snsPublish cfg.SNS_TOPIC_ARN message "ECR Image Push Notification" true],
         .ok ⟨200, jsonDumpsStr "Lambda executed successfully!"⟩)

/-- A full invocation: module initialization (environment lookup at cold
start) followed by the handler.  If initialization raises, no handler runs
and no external call is made. -/
def invoke (env : Env) (persistFails publishFails : Bool)
    (event : JObj) (now : UTCTime) : List Effect × Except PyErr Response :=
  match loadConfig env with
  | .error e => ([], .error e)
  | .ok cfg => lambda_handler cfg persistFails publishFails event now

/-- The items the store holds after a run: the successfully completed
`put_item` calls (the handler never deletes or updates anything). -/
def storedRecords (trace : List Effect) : List PushRecord :=
  trace.filterMap fun e =>
    match e with
    | .putItem _ item true => some item
    | _ => none

/-- A fixed wall-clock reading used in concrete instantiations. -/
def sampleTime : UTCTime := ⟨2026, 10, 12, 9, 30, 15, 0⟩

/-- A fixed configuration used in concrete instantiations. -/
def sampleCfg : Config := ⟨"push-records", "ecr-topic"⟩

/-- The all-sentinel record an empty event produces. -/
def sampleSentinelRecord : PushRecord :=
  ⟨.jstr "unknown-repo", .jstr "unknown-tag", .jstr "unknown-user",
    isoformat sampleTime⟩

/-- The message an empty event produces. -/
def sampleSentinelMessage : String :=
  notificationMessage (.jstr "unknown-repo") (.jstr "unknown-tag")
    (.jstr "unknown-user") (isoformat sampleTime)

/-- A Shape B ("webhook") event used in concrete instantiations. -/
def sampleEvent2 : JObj :=
  [("image_tag", .jstr "latest"), ("repository", .jstr "svc"),
    ("pushed_by", .jstr "ci-bot")]

end ECRLogger

namespace ECRLogger

/-! ## Helper lemmas -/

/-- `dc` always yields a decimal digit character. -/
theorem isDigit_dc (n : Nat) : (dc n).isDigit = true := by
  have h : n % 10 < 10 := Nat.mod_lt n (by decide)
  unfold dc
  set m := n % 10 with hm
  interval_cases m <;> rfl

/-- Every `isoformat` output passes the ISO-8601 shape check. -/
theorem isISO8601_isoformat (t : UTCTime) : isISO8601 (isoformat t) = true := by
  by_cases h0 : t.microsecond = 0 <;>
    simp [isISO8601, isoformat, pad4, pad2, pad6, h0, isDigit_dc]

/-- `json.dumps` of the success literal is the quoted literal. -/
theorem jsonDumpsStr_success :
    jsonDumpsStr "Lambda executed successfully!" =
      "\"Lambda executed successfully!\"" := by rfl

/-- Exhaustive characterization of one handler run: either field
resolution raises and nothing is attempted, or resolution yields the three
fields and the run is one of the three put/publish outcome shapes. -/
theorem handler_spec (cfg : Config) (pf pubf : Bool) (event : JObj) (now : UTCTime) :
    (∃ e, resolveFields event = .error e ∧
      lambda_handler cfg pf pubf event now = ([], .error e)) ∨
    (∃ it rep pb, resolveFields event = .ok (it, rep, pb) ∧
      ((pf = true ∧ lambda_handler cfg pf pubf event now =
          ([.putItem cfg.DYNAMODB_TABLE ⟨rep, it, pb, isoformat now⟩ false],
           .error (.clientError "put_item"))) ∨
       (pf = false ∧ pubf = true ∧ lambda_handler cfg pf pubf event now =
          ([.putItem cfg.DYNAMODB_TABLE ⟨rep, it, pb, isoformat now⟩ true,
            .snsPublish cfg.SNS_TOPIC_ARN
              (notificationMessage rep it pb (isoformat now))
              "ECR Image Push Notification" false],
           .error (.clientError "publish"))) ∨
       (pf = false ∧ pubf = false ∧ lambda_handler cfg pf pubf event now =
          ([.putItem cfg.DYNAMODB_TABLE ⟨rep, it, pb, isoformat now⟩ true,
            .snsPublish cfg.SNS_TOPIC_ARN
              (notificationMessage rep it pb (isoformat now))
              "ECR Image Push Notification" true],
           .ok ⟨200, jsonDumpsStr "Lambda executed successfully!"⟩)))) := by
  cases hres : resolveFields event with
  | error e => exact .inl ⟨e, rfl, by simp [lambda_handler, hres]⟩
  | ok v =>
    obtain ⟨it, rep, pb⟩ := v
    refine .inr ⟨it, rep, pb, rfl, ?_⟩
    cases pf <;> cases pubf <;> simp [lambda_handler, hres]

/-- When the "detail" value, if present at all, is an object, field
resolution succeeds. -/
theorem resolveFields_ok_of_detail_obj (event : JObj)
    (hdet : ∀ v, jlookup event "detail" = some v → ∃ o, v = JVal.jobj o) :
    ∃ it rep pb, resolveFields event = .ok (it, rep, pb) := by
  cases hd : jlookup event "detail" with
  | none =>
    refine ⟨(jlookup event "image_tag").getD (.jstr "unknown-tag"),
      (jlookup event "repository").getD (.jstr "unknown-repo"),
      (jlookup event "pushed_by").getD (.jstr "unknown-user"), ?_⟩
    simp [resolveFields, hd]
  | some v =>
    obtain ⟨o, rfl⟩ := hdet v hd
    refine ⟨(jlookup o "image-tag").getD (.jstr "unknown-tag"),
      (jlookup o "repository-name").getD (.jstr "unknown-repo"),
      (jlookup event "account").getD (.jstr "unknown-user"), ?_⟩
    simp [resolveFields, hd, jGet]

end ECRLogger

namespace ECRLogger

/-! ## Claims -/

/-- C1: field resolution is a two-way dispatch on the presence of a
top-level "detail" key.  When "detail" is present (an object, as Shape A
defines it), imageTag comes from `detail["image-tag"]`, repository from
`detail["repository-name"]`, and pushedBy from top-level `"account"`,
regardless of any top-level `repository` / `image_tag` / `pushed_by` keys;
when "detail" is absent, the fields come from top-level `image_tag`,
`repository`, `pushed_by`. -/
theorem C1_shape_dispatch (event : JObj) :
    (∀ d, jlookup event "detail" = some (.jobj d) →
      resolveFields event =
        .ok ((jlookup d "image-tag").getD (.jstr "unknown-tag"),
          (jlookup d "repository-name").getD (.jstr "unknown-repo"),
          (jlookup event "account").getD (.jstr "unknown-user"))) ∧
    (jlookup event "detail" = none →
      resolveFields event =
        .ok ((jlookup event "image_tag").getD (.jstr "unknown-tag"),
          (jlookup event "repository").getD (.jstr "unknown-repo"),
          (jlookup event "pushed_by").getD (.jstr "unknown-user"))) := by
  refine ⟨fun d hd => ?_, fun hd => ?_⟩ <;> simp [resolveFields, hd, jGet]

/-- C1 witness: an event with both shapes' keys present resolves via the
"detail" branch, the shadow top-level keys notwithstanding. -/
theorem C1_shape_dispatch_witness :
    resolveFields
      [("detail", .jobj [("image-tag", .jstr "v1.2"),
          ("repository-name", .jstr "myapp")]),
        ("account", .jstr "123456789012"),
        ("repository", .jstr "shadow-repo"),
        ("image_tag", .jstr "shadow-tag"),
        ("pushed_by", .jstr "shadow-user")] =
      .ok (.jstr "v1.2", .jstr "myapp", .jstr "123456789012") := by
  have h := (C1_shape_dispatch
    [("detail", .jobj [("image-tag", .jstr "v1.2"),
        ("repository-name", .jstr "myapp")]),
      ("account", .jstr "123456789012"),
      ("repository", .jstr "shadow-repo"),
      ("image_tag", .jstr "shadow-tag"),
      ("pushed_by", .jstr "shadow-user")]).1
    [("image-tag", .jstr "v1.2"), ("repository-name", .jstr "myapp")]
    (by simp [jlookup])
  simpa [jlookup] using h

/-- C2 counterexample: the claim says field resolution never aborts on any
inbound event, but when the "detail" value is present and is not a dict
(here a string), `event['detail'].get(...)` raises `AttributeError`: no
record, no notification. -/
theorem C2_claim_counterexample :
    lambda_handler sampleCfg false false [("detail", .jstr "oops")] sampleTime =
      ([], .error .attributeError) := by
  rfl

/-- C2 amended: for every inbound event whose "detail" value, when
present, is an object, field resolution never aborts: the handler writes
one record, publishes one notification, and returns the success envelope
(absent keys having been replaced by the sentinels). -/
theorem C2_no_abort (cfg : Config) (event : JObj) (now : UTCTime)
    (hdet : ∀ v, jlookup event "detail" = some v → ∃ o, v = JVal.jobj o) :
    ∃ r msg, lambda_handler cfg false false event now =
      ([.putItem cfg.DYNAMODB_TABLE r true,
        .snsPublish cfg.SNS_TOPIC_ARN msg "ECR Image Push Notification" true],
       .ok ⟨200, "\"Lambda executed successfully!\""⟩) := by
  obtain ⟨it, rep, pb, hres⟩ := resolveFields_ok_of_detail_obj event hdet
  refine ⟨⟨rep, it, pb, isoformat now⟩,
    notificationMessage rep it pb (isoformat now), ?_⟩
  simp [lambda_handler, hres, jsonDumpsStr_success]

/-- C2 witness: the empty event (all keys absent) still produces a record
and a notification and returns 200. -/
theorem C2_no_abort_witness :
    ∃ r msg, lambda_handler sampleCfg false false [] sampleTime =
      ([.putItem sampleCfg.DYNAMODB_TABLE r true,
        .snsPublish sampleCfg.SNS_TOPIC_ARN msg
          "ECR Image Push Notification" true],
       .ok ⟨200, "\"Lambda executed successfully!\""⟩) :=
  C2_no_abort sampleCfg [] sampleTime (by intro v h; simp [jlookup] at h)

/-- C3 counterexample: the claim says no persisted attribute is ever null,
but an event carrying JSON `null` under `image_tag` persists a record
whose ImageTag attribute is null. -/
theorem C3_claim_counterexample :
    (storedRecords (lambda_handler sampleCfg false false
        [("image_tag", JVal.jnull)] sampleTime).1).map PushRecord.ImageTag =
      [JVal.jnull] := by
  rfl

/-- C3 amended: every persisted record carries all four attributes; an
absent source key yields exactly the corresponding sentinel; the
timestamp is always the generated string.  (A present source key bound to
JSON null is persisted as a null attribute, however.) -/
theorem C3_record_fields (cfg : Config) (pf pubf : Bool) (event : JObj)
    (now : UTCTime) :
    ∀ tbl r ok, Effect.putItem tbl r ok ∈ (lambda_handler cfg pf pubf event now).1 →
      r.Timestamp = isoformat now ∧
      (jlookup event "detail" = none →
        (jlookup event "image_tag" = none → r.ImageTag = .jstr "unknown-tag") ∧
        (jlookup event "repository" = none → r.Repository = .jstr "unknown-repo") ∧
        (jlookup event "pushed_by" = none → r.PushedBy = .jstr "unknown-user")) ∧
      (∀ o, jlookup event "detail" = some (.jobj o) →
        (jlookup o "image-tag" = none → r.ImageTag = .jstr "unknown-tag") ∧
        (jlookup o "repository-name" = none → r.Repository = .jstr "unknown-repo") ∧
        (jlookup event "account" = none → r.PushedBy = .jstr "unknown-user")) := by
  intro tbl r ok hmem
  rcases handler_spec cfg pf pubf event now with ⟨e, hres, heq⟩ |
    ⟨it, rep, pb, hres, hcase⟩
  · rw [heq] at hmem
    simp at hmem
  · have hr : r = ⟨rep, it, pb, isoformat now⟩ := by
      rcases hcase with ⟨hpf, heq⟩ | ⟨hpf, hpubf, heq⟩ | ⟨hpf, hpubf, heq⟩ <;>
        rw [heq] at hmem <;> simp at hmem <;> exact hmem.2.1
    subst hr
    refine ⟨rfl, ?_, ?_⟩
    · intro hd
      simp [resolveFields, hd] at hres
      obtain ⟨h1, h2, h3⟩ := hres
      exact ⟨fun h => by simp [h] at h1; simp [h1.symm],
        fun h => by simp [h] at h2; simp [h2.symm],
        fun h => by simp [h] at h3; simp [h3.symm]⟩
    · intro o hd
      simp [resolveFields, hd, jGet] at hres
      obtain ⟨h1, h2, h3⟩ := hres
      exact ⟨fun h => by simp [h] at h1; simp [h1.symm],
        fun h => by simp [h] at h2; simp [h2.symm],
        fun h => by simp [h] at h3; simp [h3.symm]⟩

/-- C3 witness: the empty event persists the all-sentinel record. -/
theorem C3_record_fields_witness :
    (Effect.putItem "push-records" sampleSentinelRecord true ∈
      (lambda_handler sampleCfg false false [] sampleTime).1) ∧
    (sampleSentinelRecord.Timestamp = isoformat sampleTime ∧
      (jlookup ([] : JObj) "detail" = none →
        (jlookup ([] : JObj) "image_tag" = none →
          sampleSentinelRecord.ImageTag = .jstr "unknown-tag") ∧
        (jlookup ([] : JObj) "repository" = none →
          sampleSentinelRecord.Repository = .jstr "unknown-repo") ∧
        (jlookup ([] : JObj) "pushed_by" = none →
          sampleSentinelRecord.PushedBy = .jstr "unknown-user")) ∧
      (∀ o, jlookup ([] : JObj) "detail" = some (.jobj o) →
        (jlookup o "image-tag" = none →
          sampleSentinelRecord.ImageTag = .jstr "unknown-tag") ∧
        (jlookup o "repository-name" = none →
          sampleSentinelRecord.Repository = .jstr "unknown-repo") ∧
        (jlookup ([] : JObj) "account" = none →
          sampleSentinelRecord.PushedBy = .jstr "unknown-user"))) := by
  have hmem : Effect.putItem "push-records" sampleSentinelRecord true ∈
      (lambda_handler sampleCfg false false [] sampleTime).1 := by
    have h : (lambda_handler sampleCfg false false [] sampleTime).1 =
        [Effect.putItem "push-records" sampleSentinelRecord true,
          Effect.snsPublish "ecr-topic"
            (notificationMessage (.jstr "unknown-repo") (.jstr "unknown-tag")
              (.jstr "unknown-user") (isoformat sampleTime))
            "ECR Image Push Notification" true] := by rfl
    rw [h]
    exact List.mem_cons_self _ _
  exact ⟨hmem, C3_record_fields sampleCfg false false [] sampleTime
    "push-records" sampleSentinelRecord true hmem⟩


/-- Any `putItem` call in a run's trace carries the resolved fields and the
generated timestamp, targets the configured table, and succeeded exactly
when the persist fault is not injected. -/
theorem mem_putItem_spec (cfg : Config) (pf pubf : Bool) (event : JObj)
    (now : UTCTime) {tbl : String} {r : PushRecord} {ok : Bool}
    (hmem : Effect.putItem tbl r ok ∈ (lambda_handler cfg pf pubf event now).1) :
    ∃ it rep pb, resolveFields event = .ok (it, rep, pb) ∧
      tbl = cfg.DYNAMODB_TABLE ∧ r = ⟨rep, it, pb, isoformat now⟩ ∧ ok = !pf := by
  rcases handler_spec cfg pf pubf event now with ⟨e, hres, heq⟩ |
    ⟨it, rep, pb, hres, hcase⟩
  · rw [heq] at hmem
    simp at hmem
  · refine ⟨it, rep, pb, hres, ?_⟩
    rcases hcase with ⟨hpf, heq⟩ | ⟨hpf, hpubf, heq⟩ | ⟨hpf, hpubf, heq⟩ <;>
      rw [heq] at hmem <;> simp at hmem <;>
      exact ⟨hmem.1, hmem.2.1, by simp [hpf, hmem.2.2]⟩

/-- Any `snsPublish` call in a run's trace carries the template message
built from the resolved fields and the generated timestamp, the literal
subject, targets the configured topic, happens only when persist did not
fail, and succeeded exactly when the publish fault is not injected. -/
theorem mem_snsPublish_spec (cfg : Config) (pf pubf : Bool) (event : JObj)
    (now : UTCTime) {arn msg subj : String} {ok : Bool}
    (hmem : Effect.snsPublish arn msg subj ok ∈
      (lambda_handler cfg pf pubf event now).1) :
    ∃ it rep pb, resolveFields event = .ok (it, rep, pb) ∧ pf = false ∧
      arn = cfg.SNS_TOPIC_ARN ∧ subj = "ECR Image Push Notification" ∧
      msg = notificationMessage rep it pb (isoformat now) ∧ ok = !pubf := by
  rcases handler_spec cfg pf pubf event now with ⟨e, hres, heq⟩ |
    ⟨it, rep, pb, hres, hcase⟩
  · rw [heq] at hmem
    simp at hmem
  · refine ⟨it, rep, pb, hres, ?_⟩
    rcases hcase with ⟨hpf, heq⟩ | ⟨hpf, hpubf, heq⟩ | ⟨hpf, hpubf, heq⟩ <;>
      rw [heq] at hmem <;> simp at hmem
    · exact ⟨hpf, hmem.1, hmem.2.2.1, hmem.2.1, by simp [hpubf, hmem.2.2.2]⟩
    · exact ⟨hpf, hmem.1, hmem.2.2.1, hmem.2.1, by simp [hpubf, hmem.2.2.2]⟩

/-- C4: every published notification has the literal subject
"ECR Image Push Notification" and a body that is byte-for-byte the
five-line template with the four resolved values substituted. -/
theorem C4_message_template (cfg : Config) (pf pubf : Bool) (event : JObj)
    (now : UTCTime) :
    ∀ arn msg subj ok,
      Effect.snsPublish arn msg subj ok ∈ (lambda_handler cfg pf pubf event now).1 →
      subj = "ECR Image Push Notification" ∧
      ∃ it rep pb, resolveFields event = .ok (it, rep, pb) ∧
        msg = "Docker image pushed successfully!\n" ++
          "Repository: " ++ pyStr rep ++ "\n" ++
          "Tag: " ++ pyStr it ++ "\n" ++
          "Pushed By: " ++ pyStr pb ++ "\n" ++
          "Timestamp: " ++ isoformat now := by
  intro arn msg subj ok hmem
  obtain ⟨it, rep, pb, hres, hpf, harn, hsubj, hmsg, hok⟩ :=
    mem_snsPublish_spec cfg pf pubf event now hmem
  exact ⟨hsubj, it, rep, pb, hres, by rw [hmsg]; rfl⟩

/-- C4 witness: the Shape B event publishes the concrete five-line message
with the literal subject. -/
theorem C4_message_template_witness :
    ("ECR Image Push Notification" : String) = "ECR Image Push Notification" ∧
    ∃ it rep pb, resolveFields sampleEvent2 = .ok (it, rep, pb) ∧
      notificationMessage (.jstr "svc") (.jstr "latest") (.jstr "ci-bot")
          (isoformat sampleTime) =
        "Docker image pushed successfully!\n" ++
          "Repository: " ++ pyStr rep ++ "\n" ++
          "Tag: " ++ pyStr it ++ "\n" ++
          "Pushed By: " ++ pyStr pb ++ "\n" ++
          "Timestamp: " ++ isoformat sampleTime := by
  have hmem : Effect.snsPublish "ecr-topic"
      (notificationMessage (.jstr "svc") (.jstr "latest") (.jstr "ci-bot")
        (isoformat sampleTime)) "ECR Image Push Notification" true ∈
      (lambda_handler sampleCfg false false sampleEvent2 sampleTime).1 := by
    have h : (lambda_handler sampleCfg false false sampleEvent2 sampleTime).1 =
        [Effect.putItem "push-records"
          ⟨.jstr "svc", .jstr "latest", .jstr "ci-bot", isoformat sampleTime⟩ true,
         Effect.snsPublish "ecr-topic"
          (notificationMessage (.jstr "svc") (.jstr "latest") (.jstr "ci-bot")
            (isoformat sampleTime)) "ECR Image Push Notification" true] := by rfl
    rw [h]
    exact List.mem_cons_of_mem _ (List.mem_cons_self _ _)
  exact C4_message_template sampleCfg false false sampleEvent2 sampleTime
    "ecr-topic" _ "ECR Image Push Notification" true hmem

/-- C5: every successful invocation returns statusCode 200 and the
JSON-encoded body, no matter the event or which fields were defaults. -/
theorem C5_success_envelope (cfg : Config) (pf pubf : Bool) (event : JObj)
    (now : UTCTime) (resp : Response)
    (h : (lambda_handler cfg pf pubf event now).2 = .ok resp) :
    resp.statusCode = 200 ∧ resp.body = "\"Lambda executed successfully!\"" := by
  rcases handler_spec cfg pf pubf event now with ⟨e, hres, heq⟩ |
    ⟨it, rep, pb, hres, hcase⟩
  · rw [heq] at h
    simp at h
  · rcases hcase with ⟨hpf, heq⟩ | ⟨hpf, hpubf, heq⟩ | ⟨hpf, hpubf, heq⟩ <;>
      rw [heq] at h <;> simp at h
    rw [← h]
    exact ⟨rfl, jsonDumpsStr_success⟩

/-- C5 witness: the empty event (all fields sentinel defaults) returns the
200 envelope with the literal JSON body. -/
theorem C5_success_envelope_witness :
    (lambda_handler sampleCfg false false [] sampleTime).2 =
        .ok ⟨200, "\"Lambda executed successfully!\""⟩ ∧
      (Response.statusCode ⟨200, "\"Lambda executed successfully!\""⟩ = 200 ∧
        Response.body ⟨200, "\"Lambda executed successfully!\""⟩ =
          "\"Lambda executed successfully!\"") :=
  ⟨by rfl, C5_success_envelope sampleCfg false false [] sampleTime _ (by rfl)⟩

/-- C6: the persisted timestamp is a valid ISO-8601 string generated from
the wall clock at handling time: for every event the stored Timestamp is
exactly `isoformat` of the clock reading, so it is not copied from or
influenced by any event field, and two events handled at the same clock
reading store the identical timestamp. -/
theorem C6_timestamp_from_clock (now : UTCTime) (_hwf : now.wf) :
    isISO8601 (isoformat now) = true ∧
    (∀ cfg pf pubf event tbl r ok,
      Effect.putItem tbl r ok ∈ (lambda_handler cfg pf pubf event now).1 →
      r.Timestamp = isoformat now) ∧
    (∀ cfg1 cfg2 pf1 pf2 pubf1 pubf2 e1 e2 tbl1 tbl2 r1 r2 ok1 ok2,
      Effect.putItem tbl1 r1 ok1 ∈ (lambda_handler cfg1 pf1 pubf1 e1 now).1 →
      Effect.putItem tbl2 r2 ok2 ∈ (lambda_handler cfg2 pf2 pubf2 e2 now).1 →
      r1.Timestamp = r2.Timestamp) := by
  have hts : ∀ cfg pf pubf event tbl r ok,
      Effect.putItem tbl r ok ∈ (lambda_handler cfg pf pubf event now).1 →
      r.Timestamp = isoformat now := by
    intro cfg pf pubf event tbl r ok hmem
    obtain ⟨it, rep, pb, hres, htbl, hr, hok⟩ :=
      mem_putItem_spec cfg pf pubf event now hmem
    rw [hr]
  refine ⟨isISO8601_isoformat now, hts, ?_⟩
  intro cfg1 cfg2 pf1 pf2 pubf1 pubf2 e1 e2 tbl1 tbl2 r1 r2 ok1 ok2 h1 h2
  rw [hts cfg1 pf1 pubf1 e1 tbl1 r1 ok1 h1, hts cfg2 pf2 pubf2 e2 tbl2 r2 ok2 h2]

/-- C6 witness: at the sample clock reading, the generated timestamp is
ISO-8601 and both the empty event and the Shape B event store it. -/
theorem C6_timestamp_from_clock_witness :
    isISO8601 (isoformat sampleTime) = true ∧
    (∀ cfg pf pubf event tbl r ok,
      Effect.putItem tbl r ok ∈ (lambda_handler cfg pf pubf event sampleTime).1 →
      r.Timestamp = isoformat sampleTime) ∧
    (∀ cfg1 cfg2 pf1 pf2 pubf1 pubf2 e1 e2 tbl1 tbl2 r1 r2 ok1 ok2,
      Effect.putItem tbl1 r1 ok1 ∈ (lambda_handler cfg1 pf1 pubf1 e1 sampleTime).1 →
      Effect.putItem tbl2 r2 ok2 ∈ (lambda_handler cfg2 pf2 pubf2 e2 sampleTime).1 →
      r1.Timestamp = r2.Timestamp) :=
  C6_timestamp_from_clock sampleTime (by decide)

/-- C7: per invocation the trace holds at most one `put_item` and at most
one `publish`, in that strict order with nothing else; on a successful
return it holds exactly the two, and a publish is only ever attempted
after a completed `put_item`. -/
theorem C7_effect_order (cfg : Config) (pf pubf : Bool) (event : JObj)
    (now : UTCTime) :
    (∀ resp, (lambda_handler cfg pf pubf event now).2 = .ok resp →
      ∃ r msg, (lambda_handler cfg pf pubf event now).1 =
        [.putItem cfg.DYNAMODB_TABLE r true,
         .snsPublish cfg.SNS_TOPIC_ARN msg "ECR Image Push Notification" true]) ∧
    ((lambda_handler cfg pf pubf event now).1 = [] ∨
     (∃ r ok, (lambda_handler cfg pf pubf event now).1 =
        [.putItem cfg.DYNAMODB_TABLE r ok]) ∨
     (∃ r msg ok, (lambda_handler cfg pf pubf event now).1 =
        [.putItem cfg.DYNAMODB_TABLE r true,
         .snsPublish cfg.SNS_TOPIC_ARN msg "ECR Image Push Notification" ok])) := by
  rcases handler_spec cfg pf pubf event now with ⟨e, hres, heq⟩ |
    ⟨it, rep, pb, hres, hcase⟩
  · rw [heq]
    exact ⟨fun resp h => by simp at h, .inl rfl⟩
  · rcases hcase with ⟨hpf, heq⟩ | ⟨hpf, hpubf, heq⟩ | ⟨hpf, hpubf, heq⟩ <;> rw [heq]
    · exact ⟨fun resp h => by simp at h, .inr (.inl ⟨_, _, rfl⟩)⟩
    · exact ⟨fun resp h => by simp at h, .inr (.inr ⟨_, _, _, rfl⟩)⟩
    · exact ⟨fun resp h => ⟨_, _, rfl⟩, .inr (.inr ⟨_, _, _, rfl⟩)⟩

/-- C7 witness: for the empty event with no injected faults the trace is
exactly the `put_item` followed by the `publish`. -/
theorem C7_effect_order_witness :
    (∀ resp, (lambda_handler sampleCfg false false [] sampleTime).2 = .ok resp →
      ∃ r msg, (lambda_handler sampleCfg false false [] sampleTime).1 =
        [.putItem sampleCfg.DYNAMODB_TABLE r true,
         .snsPublish sampleCfg.SNS_TOPIC_ARN msg
           "ECR Image Push Notification" true]) ∧
    ((lambda_handler sampleCfg false false [] sampleTime).1 = [] ∨
     (∃ r ok, (lambda_handler sampleCfg false false [] sampleTime).1 =
        [.putItem sampleCfg.DYNAMODB_TABLE r ok]) ∨
     (∃ r msg ok, (lambda_handler sampleCfg false false [] sampleTime).1 =
        [.putItem sampleCfg.DYNAMODB_TABLE r true,
         .snsPublish sampleCfg.SNS_TOPIC_ARN msg
           "ECR Image Push Notification" ok])) :=
  C7_effect_order sampleCfg false false [] sampleTime

/-- C8: a raised persist aborts the invocation with no publish attempted;
a raised publish aborts the invocation but the successfully stored record
remains, with no compensating effect and no retry in the trace. -/
theorem C8_failure_propagation (cfg : Config) (pf pubf : Bool) (event : JObj)
    (now : UTCTime) :
    (∀ tbl r, Effect.putItem tbl r false ∈ (lambda_handler cfg pf pubf event now).1 →
      (lambda_handler cfg pf pubf event now).2 = .error (.clientError "put_item") ∧
      ∀ arn msg subj ok,
        Effect.snsPublish arn msg subj ok ∉ (lambda_handler cfg pf pubf event now).1) ∧
    (∀ arn msg subj,
      Effect.snsPublish arn msg subj false ∈ (lambda_handler cfg pf pubf event now).1 →
      (lambda_handler cfg pf pubf event now).2 = .error (.clientError "publish") ∧
      ∃ r, (lambda_handler cfg pf pubf event now).1 =
          [.putItem cfg.DYNAMODB_TABLE r true,
           .snsPublish arn msg subj false] ∧
        storedRecords (lambda_handler cfg pf pubf event now).1 = [r]) := by
  constructor
  · intro tbl r hmem
    obtain ⟨it, rep, pb, hres, htbl, hr, hok⟩ :=
      mem_putItem_spec cfg pf pubf event now hmem
    have hpf : pf = true := by
      cases pf
      · simp at hok
      · rfl
    rcases handler_spec cfg pf pubf event now with ⟨e, hres2, heq⟩ |
      ⟨it2, rep2, pb2, hres2, hcase⟩
    · rw [hres] at hres2
      simp at hres2
    · rcases hcase with ⟨_, heq⟩ | ⟨hpf2, _, _⟩ | ⟨hpf2, _, _⟩
      · rw [heq]
        exact ⟨rfl, fun arn msg subj ok => by simp⟩
      · rw [hpf] at hpf2
        simp at hpf2
      · rw [hpf] at hpf2
        simp at hpf2
  · intro arn msg subj hmem
    obtain ⟨it, rep, pb, hres, hpf, harn, hsubj, hmsg, hok⟩ :=
      mem_snsPublish_spec cfg pf pubf event now hmem
    have hpubf : pubf = true := by
      cases pubf
      · simp at hok
      · rfl
    rcases handler_spec cfg pf pubf event now with ⟨e, hres2, heq⟩ |
      ⟨it2, rep2, pb2, hres2, hcase⟩
    · rw [hres] at hres2
      simp at hres2
    · rw [hres] at hres2
      simp at hres2
      obtain ⟨h1, h2, h3⟩ := hres2
      subst h1 h2 h3
      rcases hcase with ⟨hpf2, _⟩ | ⟨_, _, heq⟩ | ⟨_, hpubf2, _⟩
      · rw [hpf] at hpf2
        simp at hpf2
      · rw [heq]
        refine ⟨rfl, ⟨rep, it, pb, isoformat now⟩, ?_, by simp [storedRecords]⟩
        rw [harn, hsubj, hmsg]
      · rw [hpubf] at hpubf2
        simp at hpubf2

/-- C8 witness: with a failing persist the empty-event run errors with no
publish; with a failing publish it errors but the stored record remains. -/
theorem C8_failure_propagation_witness :
    ((lambda_handler sampleCfg true false [] sampleTime).2 =
        .error (.clientError "put_item") ∧
      ∀ arn msg subj ok, Effect.snsPublish arn msg subj ok ∉
        (lambda_handler sampleCfg true false [] sampleTime).1) ∧
    ((lambda_handler sampleCfg false true [] sampleTime).2 =
        .error (.clientError "publish") ∧
      ∃ r, (lambda_handler sampleCfg false true [] sampleTime).1 =
          [.putItem sampleCfg.DYNAMODB_TABLE r true,
           .snsPublish "ecr-topic" sampleSentinelMessage
             "ECR Image Push Notification" false] ∧
        storedRecords (lambda_handler sampleCfg false true [] sampleTime).1 = [r]) := by
  constructor
  · refine (C8_failure_propagation sampleCfg true false [] sampleTime).1
      "push-records" sampleSentinelRecord ?_
    have h : (lambda_handler sampleCfg true false [] sampleTime).1 =
        [Effect.putItem "push-records" sampleSentinelRecord false] := by rfl
    rw [h]
    exact List.mem_cons_self _ _
  · refine (C8_failure_propagation sampleCfg false true [] sampleTime).2
      "ecr-topic" sampleSentinelMessage "ECR Image Push Notification" ?_
    have h : (lambda_handler sampleCfg false true [] sampleTime).1 =
        [Effect.putItem "push-records" sampleSentinelRecord true,
         Effect.snsPublish "ecr-topic" sampleSentinelMessage
           "ECR Image Push Notification" false] := by rfl
    rw [h]
    exact List.mem_cons_of_mem _ (List.mem_cons_self _ _)

/-- C9: if either required environment variable is absent, module
initialization raises `KeyError` with that variable's name, and every
invocation under that environment makes no external call and handles no
event. -/
theorem C9_missing_config_fatal (env : Env)
    (h : envLookup env "DYNAMODB_TABLE" = none ∨
      envLookup env "SNS_TOPIC_ARN" = none) :
    ∃ k, loadConfig env = .error (.keyError k) ∧
      ∀ pf pubf event now,
        invoke env pf pubf event now = ([], .error (.keyError k)) := by
  cases h1 : envLookup env "DYNAMODB_TABLE" with
  | none =>
    exact ⟨"DYNAMODB_TABLE", by simp [loadConfig, h1],
      fun pf pubf event now => by simp [invoke, loadConfig, h1]⟩
  | some t =>
    rcases h with h2 | h2
    · rw [h1] at h2
      simp at h2
    · exact ⟨"SNS_TOPIC_ARN", by simp [loadConfig, h1, h2],
        fun pf pubf event now => by simp [invoke, loadConfig, h1, h2]⟩

/-- C9 witness: the empty environment fails initialization and every
invocation under it is inert. -/
theorem C9_missing_config_fatal_witness :
    ∃ k, loadConfig [] = .error (.keyError k) ∧
      ∀ pf pubf event now,
        invoke [] pf pubf event now = ([], .error (.keyError k)) :=
  C9_missing_config_fatal [] (.inl rfl)

/-- C10: within one invocation the clock is read once: the Timestamp
attribute of the stored record and the timestamp on the fifth line of the
published message are the identical string. -/
theorem C10_one_clock_reading (cfg : Config) (pf pubf : Bool) (event : JObj)
    (now : UTCTime) :
    ∀ tbl r ok1 arn msg subj ok2,
      Effect.putItem tbl r ok1 ∈ (lambda_handler cfg pf pubf event now).1 →
      Effect.snsPublish arn msg subj ok2 ∈ (lambda_handler cfg pf pubf event now).1 →
      r.Timestamp = isoformat now ∧
      ∃ pre, msg = pre ++ "Timestamp: " ++ r.Timestamp := by
  intro tbl r ok1 arn msg subj ok2 h1 h2
  obtain ⟨it, rep, pb, hres, htbl, hr, hok⟩ :=
    mem_putItem_spec cfg pf pubf event now h1
  obtain ⟨it2, rep2, pb2, hres2, hpf, harn, hsubj, hmsg, hok2⟩ :=
    mem_snsPublish_spec cfg pf pubf event now h2
  rw [hres] at hres2
  simp at hres2
  obtain ⟨hit, hrep, hpb⟩ := hres2
  subst hit hrep hpb
  subst hr
  refine ⟨rfl, "Docker image pushed successfully!\n" ++
    "Repository: " ++ pyStr rep ++ "\n" ++
    "Tag: " ++ pyStr it ++ "\n" ++
    "Pushed By: " ++ pyStr pb ++ "\n", ?_⟩
  rw [hmsg]
  rfl

/-- C10 witness: for the Shape B event the stored Timestamp and the
message's fifth line carry the same string. -/
theorem C10_one_clock_reading_witness :
    PushRecord.Timestamp
        ⟨.jstr "svc", .jstr "latest", .jstr "ci-bot", isoformat sampleTime⟩ =
      isoformat sampleTime ∧
    ∃ pre, notificationMessage (.jstr "svc") (.jstr "latest") (.jstr "ci-bot")
        (isoformat sampleTime) =
      pre ++ "Timestamp: " ++ PushRecord.Timestamp
        ⟨.jstr "svc", .jstr "latest", .jstr "ci-bot", isoformat sampleTime⟩ := by
  have hput : Effect.putItem "push-records"
      ⟨.jstr "svc", .jstr "latest", .jstr "ci-bot", isoformat sampleTime⟩ true ∈
      (lambda_handler sampleCfg false false sampleEvent2 sampleTime).1 := by
    have h : (lambda_handler sampleCfg false false sampleEvent2 sampleTime).1 =
        [Effect.putItem "push-records"
          ⟨.jstr "svc", .jstr "latest", .jstr "ci-bot", isoformat sampleTime⟩ true,
         Effect.snsPublish "ecr-topic"
          (notificationMessage (.jstr "svc") (.jstr "latest") (.jstr "ci-bot")
            (isoformat sampleTime)) "ECR Image Push Notification" true] := by rfl
    rw [h]
    exact List.mem_cons_self _ _
  have hpub : Effect.snsPublish "ecr-topic"
      (notificationMessage (.jstr "svc") (.jstr "latest") (.jstr "ci-bot")
        (isoformat sampleTime)) "ECR Image Push Notification" true ∈
      (lambda_handler sampleCfg false false sampleEvent2 sampleTime).1 := by
    have h : (lambda_handler sampleCfg false false sampleEvent2 sampleTime).1 =
        [Effect.putItem "push-records"
          ⟨.jstr "svc", .jstr "latest", .jstr "ci-bot", isoformat sampleTime⟩ true,
         Effect.snsPublish "ecr-topic"
          (notificationMessage (.jstr "svc") (.jstr "latest") (.jstr "ci-bot")
            (isoformat sampleTime)) "ECR Image Push Notification" true] := by rfl
    rw [h]
    exact List.mem_cons_of_mem _ (List.mem_cons_self _ _)
  exact C10_one_clock_reading sampleCfg false false sampleEvent2 sampleTime
    "push-records" _ true "ecr-topic" _ "ECR Image Push Notification" true hput hpub

end ECRLogger
